import Mathlib

/-!
Verification of the training-loop orchestrator of `src/old/solver.py`
(function `run_solver`, the sanitization helper `regularize_name`, and the
job-dispatch loop under `__main__`).

The solver is embedded as a deterministic state-transition system.  Wall-clock
time is a natural-number clock that advances by the (environment-supplied)
cost of each external operation; `time.time()` reads the current clock.  The
external collaborators (training function, prediction function, image writer)
are modelled by an `Env` record of oracles giving, per call site, the values
they return, the time they consume, and whether they raise.  A Python
exception is modelled with `Except`; the `KeyboardInterrupt` delivery points
are the top of a batch iteration and the body of a validation batch, matching
the places the claims speak about.

Transcription notes, keyed to source lines of `src/old/solver.py`:
- line 80-81: `snap = time.time(); val_snap = snap` gives the initial clocks;
- line 88-90: the training call advances the clock and increments `batch`;
- line 93-102: the snapshot fires when `batch % save_batch_freq == 0 or
  time.time() - snap > save_time_freq`; the image write is the raise point
  and it precedes the metric append of lines 106-107;
- line 106-107: `losses.append(loss)` and `regs.append(regs)` — the second
  appends the accumulator list itself, not the scalar `reg`; the trace entry
  is therefore modelled by `RegEntry.selfRef`, never `RegEntry.scalar`;
- line 110-130: the validation sub-loop runs under a bare `except:` that
  catches every exception, `KeyboardInterrupt` included; the break test on
  line 124 compares `time.time() - val_snap` (the clock last reset on line
  130, before the pass started) against `save_time_freq // 10`;
- line 132-143: `KeyboardInterrupt` and `Exception` from the epoch loop are
  caught, then the single checkpoint is written unconditionally.
-/

/-- One entry of the `regs` accumulator.  Line 107 of the source executes
`regs.append(regs)`, appending the accumulator list object itself; the entry
an implementer would expect is the scalar `reg` returned by the training
function.  The two shapes are kept apart by this marker type. -/
inductive RegEntry where
  | selfRef
  | scalar (v : Int)
deriving DecidableEq

/-- How the epoch loop of lines 82-130 terminated: all epochs exhausted,
`except KeyboardInterrupt` (line 132), or `except Exception` (line 134). -/
inductive Outcome where
  | completed
  | interrupted
  | failed
deriving DecidableEq

/-- How one firing of the validation sub-loop (lines 112-128) ended:
validation iterator exhausted, `break` on the time test of line 124, or an
exception caught by the bare `except:` of line 127.  `isInterrupt` records
whether the caught exception was a `KeyboardInterrupt`. -/
inductive ValExit where
  | exhausted
  | timeout
  | caught (isInterrupt : Bool)
deriving DecidableEq

/-- The mutable state of `run_solver`: the clock, the two cadence clocks
`snap` and `val_snap`, the per-epoch counters `batch` and `val_batch`, and
the accumulators `losses` and `regs`.  The remaining fields are observers of
emitted events: `trains` counts training-function invocations that returned
without raising, `snapshots` lists the (epoch, batch) tags of training
snapshot images written, `valPassBatches` records how many validation batches
each fired validation pass fully processed, `valAborts` counts validation
passes ended by the bare `except:`, and `swallowed` counts the
`KeyboardInterrupt`s that the bare `except:` consumed. -/
structure SolverState where
  now : Nat
  snap : Nat
  valSnap : Nat
  batch : Nat
  valBatch : Nat
  losses : List Int
  regs : List RegEntry
  trains : Nat
  snapshots : List (Nat × Nat)
  valPassBatches : List Nat
  valAborts : Nat
  swallowed : Nat
deriving DecidableEq

/-- The record pickled on lines 140-142. -/
structure Checkpoint where
  params : List Int
  losses : List Int
  regularization : List RegEntry
  model_id : Int
deriving DecidableEq

/-- Result of a whole run: final state, termination cause, and the list of
checkpoint artifacts written. -/
structure RunResult where
  outcome : Outcome
  state : SolverState
  checkpoints : List Checkpoint
deriving DecidableEq

/-- Environment of external collaborators and fault injections for one run.
Cost oracles give the clock advance of each external call; the `Raises` and
`interrupt` oracles say whether that call site raises on the given
(epoch, batch index) or (epoch, batch index, validation index). -/
structure Env where
  saveBatchFreq : Nat
  saveTimeFreq : Nat
  startTime : Nat
  nTrainBatches : Nat
  nValBatches : Nat
  modelId : Int
  params : List Int
  trainCost : Nat → Nat → Nat
  lossVal : Nat → Nat → Int
  regVal : Nat → Nat → Int
  snapCost : Nat → Nat → Nat
  predCost : Nat → Nat → Nat → Nat
  interruptAt : Nat → Nat → Bool
  trainRaises : Nat → Nat → Bool
  snapRaises : Nat → Nat → Bool
  valRaises : Nat → Nat → Nat → Bool
  interruptInVal : Nat → Nat → Nat → Bool

/-- The validation inner loop of lines 113-125.  Arguments after the batch
position are: remaining validation batches, current validation index `j`,
state.  Returns the state after the loop, the number of validation batches
fully processed by this call, and how the loop ended.  The break test of line
124 reads `val_snap`, which is not reset on entry to the pass. -/
def valLoop (env : Env) (e i : Nat) : Nat → Nat → SolverState → SolverState × Nat × ValExit
  | 0, _, s => (s, 0, ValExit.exhausted)
  | Nat.succ fuel, j, s =>
    if env.interruptInVal e i j then (s, 0, ValExit.caught true)
    else if env.valRaises e i j then (s, 0, ValExit.caught false)
    else
      let s1 : SolverState :=
        { s with now := s.now + env.predCost e i j, valBatch := s.valBatch + 1 }
      if s1.now - s1.valSnap > env.saveTimeFreq / 10 then (s1, 1, ValExit.timeout)
      else
        let r := valLoop env e i fuel (j + 1) s1
        (r.1, r.2.1 + 1, r.2.2)

/-- One firing of the validation sub-loop, lines 111-130: run the inner loop
under the bare `except:` of line 127, then reset `val_snap` (line 130, which
runs on the normal, break and caught paths alike). -/
def runValFired (env : Env) (e i : Nat) (s : SolverState) : SolverState :=
  let r := valLoop env e i env.nValBatches 0 s
  { r.1 with
    valSnap := r.1.now,
    valPassBatches := r.1.valPassBatches ++ [r.2.1],
    valAborts := r.1.valAborts + (match r.2.2 with | ValExit.caught _ => 1 | _ => 0),
    swallowed := r.1.swallowed + (match r.2.2 with | ValExit.caught true => 1 | _ => 0) }

/-- Lines 106-110: append to `losses` and `regs` (the latter appending the
list itself, line 107), then fire the validation sub-loop when
`time.time() - val_snap > save_time_freq`.  The appends do not move the
clock, so the test of line 110 is stated on the incoming state. -/
def recordAndValidate (env : Env) (e i : Nat) (s : SolverState) : SolverState :=
  if s.now - s.valSnap > env.saveTimeFreq then
    runValFired env e i
      { s with losses := s.losses ++ [env.lossVal e i],
               regs := s.regs ++ [RegEntry.selfRef] }
  else
    { s with losses := s.losses ++ [env.lossVal e i],
             regs := s.regs ++ [RegEntry.selfRef] }

/-- The body of one training batch, lines 85-130.  A `KeyboardInterrupt`
between batch iterations or an exception from the training call or the
snapshot image write escapes to the handlers of lines 132-134 and is returned
as `Except.error`; otherwise the next state is returned.  The snapshot fires
on the OR-test of line 93; its image write (line 98) is the raise point and
precedes both the clock reset of line 102 and the metric append of lines
106-107. -/
def runBatch (env : Env) (e i : Nat) (s : SolverState) :
    Except (Outcome × SolverState) SolverState :=
  if env.interruptAt e i then Except.error (Outcome.interrupted, s)
  else if env.trainRaises e i then Except.error (Outcome.failed, s)
  else if (s.batch + 1) % env.saveBatchFreq = 0 ∨
      (s.now + env.trainCost e i) - s.snap > env.saveTimeFreq then
    if env.snapRaises e i then
      Except.error (Outcome.failed,
        { s with now := s.now + env.trainCost e i,
                 trains := s.trains + 1, batch := s.batch + 1 })
    else
      Except.ok (recordAndValidate env e i
        { s with now := s.now + env.trainCost e i + env.snapCost e i,
                 snap := s.now + env.trainCost e i + env.snapCost e i,
                 trains := s.trains + 1, batch := s.batch + 1,
                 snapshots := s.snapshots ++ [(e, s.batch + 1)] })
  else
    Except.ok (recordAndValidate env e i
      { s with now := s.now + env.trainCost e i,
               trains := s.trains + 1, batch := s.batch + 1 })

/-- The inner `for` over training batches of one epoch (line 85), iterated
over the remaining batch count with running index `i`. -/
def runBatches (env : Env) (e : Nat) :
    Nat → Nat → SolverState → Except (Outcome × SolverState) SolverState
  | 0, _, s => Except.ok s
  | Nat.succ fuel, i, s =>
    match runBatch env e i s with
    | Except.ok s1 => runBatches env e fuel (i + 1) s1
    | Except.error r => Except.error r

/-- The epoch loop of lines 82-130 with the handlers of lines 132-135:
`batch` and `val_batch` reset at each epoch start (lines 83-84); an escaped
exception ends the loop with its outcome. -/
def runEpochs (env : Env) : Nat → Nat → SolverState → Outcome × SolverState
  | 0, _, s => (Outcome.completed, s)
  | Nat.succ fuel, e, s =>
    match runBatches env e env.nTrainBatches 0 { s with batch := 0, valBatch := 0 } with
    | Except.ok s1 => runEpochs env fuel (e + 1) s1
    | Except.error r => r

/-- Initial state, lines 76-81: empty accumulators, all clocks at the start
time. -/
def initState (env : Env) : SolverState :=
  { now := env.startTime, snap := env.startTime, valSnap := env.startTime,
    batch := 0, valBatch := 0, losses := [], regs := [], trains := 0,
    snapshots := [], valPassBatches := [], valAborts := 0, swallowed := 0 }

/-- The checkpoint record assembled on line 140: final parameter values, the
two accumulators, and the model identifier. -/
def mkCheckpoint (env : Env) (s : SolverState) : Checkpoint :=
  { params := env.params, losses := s.losses, regularization := s.regs,
    model_id := env.modelId }

/-- `run_solver`, lines 79-143: twenty epochs (line 82) under the exception
handlers, then the unconditional checkpoint write of lines 137-142. -/
def runSolver (env : Env) : RunResult :=
  let r := runEpochs env 20 0 (initState env)
  { outcome := r.1, state := r.2, checkpoints := [mkCheckpoint env r.2] }

/-- Substitution of one character, the semantics of Python `str.replace` for
a single-character pattern and single-character replacement as used on line
66 of the source. -/
def repl (pat rep c : Char) : Char := if c = pat then rep else c

/-- Python `s.replace(pat, rep)` for one-character `pat` and `rep`: replace
every occurrence, i.e. map `repl` over the characters. -/
def replaceChar (pat rep : Char) (s : String) : String :=
  String.mk (s.data.map (repl pat rep))

/-- Line 66: `lambda s: s.replace("+","p").replace("-","m").replace(".","o")`. -/
def regularize_name (s : String) : String :=
  replaceChar '.' 'o' (replaceChar '-' 'm' (replaceChar '+' 'p' s))

/-- Line 67: the directory name handed to `tools.require_dir`, built by
`"{}_{}_{}".format(dir_prefix, regularize_name(dataset), timestamp)`. -/
def saveDirName (pre dataset ts : String) : String :=
  pre ++ "_" ++ regularize_name dataset ++ "_" ++ ts

/-- Modelled from the spec: the per-character sanitization map described in
section 6 of the specification (`+` to `p`, `-` to `m`, `.` to `o`, all
other characters unchanged), stated independently of the source's chain of
`replace` calls so the two can be compared. -/
def sanitizeCharSpec (c : Char) : Char :=
  if c = '+' then 'p' else if c = '-' then 'm' else if c = '.' then 'o' else c

/-- The job-dispatch loop of lines 188-201: each entry of the job list is
decremented by one (line 189); an identifier whose decrement falls outside
`[0, numModels)` is logged and skipped with `continue` (lines 190-192), and
every other identifier is processed.  Returns the processed 0-based model
identifiers in order, and the skipped (warned) decremented identifiers in
order. -/
def runJobs (numModels : Nat) : List Int → List Int × List Int
  | [] => ([], [])
  | j :: rest =>
    if (j - 1 : Int) < 0 ∨ (numModels : Int) ≤ j - 1 then
      ((runJobs numModels rest).1, (j - 1) :: (runJobs numModels rest).2)
    else
      ((j - 1) :: (runJobs numModels rest).1, (runJobs numModels rest).2)

/-- The 1-based numbers of the next `n` training batches after `start`
batches have already run: `start+1, ..., start+n`. -/
def batchIds : Nat → Nat → List Nat
  | _, 0 => []
  | start, Nat.succ n => (start + 1) :: batchIds (start + 1) n

/-- Among the batch numbers `start+1, ..., start+n`, those on which the
count trigger `batch % saveBatchFreq == 0` of line 93 holds. -/
def firedBatches (f start n : Nat) : List Nat :=
  (batchIds start n).filter (fun b => decide (b % f = 0))

/-- The (epoch, batch) snapshot tags predicted for `fuel` epochs starting at
epoch `e`, each epoch contributing its count-triggered batches. -/
def epochSnaps (f n : Nat) : Nat → Nat → List (Nat × Nat)
  | _, 0 => []
  | e, Nat.succ fuel =>
    (firedBatches f 0 n).map (fun b => (e, b)) ++ epochSnaps f n (e + 1) fuel

/-- The fast-batch regime of the cadence claim: every external call returns
instantly (so neither time trigger can fire) and no call raises or is
interrupted. -/
def fastEnv (env : Env) : Prop :=
  (∀ e i, env.trainCost e i = 0) ∧ (∀ e i, env.snapCost e i = 0) ∧
    (∀ e i, env.interruptAt e i = false) ∧ (∀ e i, env.trainRaises e i = false) ∧
    (∀ e i, env.snapRaises e i = false)

/-- The metric-trace invariant: as many recorded losses as completed
training-function invocations. -/
def traceOk (s : SolverState) : Prop := s.losses.length = s.trains

/-- A quiet default run: one 64-sample batch per epoch, instantaneous
external calls, no faults, default frequencies of the source signature
(`save_batch_freq=100`, `save_time_freq=240`, line 46). -/
def baseEnv : Env :=
  { saveBatchFreq := 100, saveTimeFreq := 240, startTime := 0,
    nTrainBatches := 1, nValBatches := 0, modelId := 1, params := [3, 1, 4],
    trainCost := fun _ _ => 0, lossVal := fun _ _ => 1, regVal := fun _ _ => 7,
    snapCost := fun _ _ => 0, predCost := fun _ _ _ => 10,
    interruptAt := fun _ _ => false, trainRaises := fun _ _ => false,
    snapRaises := fun _ _ => false, valRaises := fun _ _ _ => false,
    interruptInVal := fun _ _ _ => false }

/-- A run interrupted at the very first batch iteration. -/
def envInterrupted : Env := { baseEnv with interruptAt := fun _ _ => true }

/-- A run whose first training call raises. -/
def envFailed : Env := { baseEnv with trainRaises := fun _ _ => true }

/-- Snapshot fires on every batch and its image write raises on the first
batch of the first epoch: the loss of the completed first training call is
never recorded. -/
def envSnapFail : Env :=
  { baseEnv with saveBatchFreq := 1,
                 snapRaises := fun e i => decide (e = 0 ∧ i = 0) }

/-- The early-exit scenario of the validation claim: the first training
batch takes 241 s, driving both time triggers past the 240 s threshold; the
validation set has 1000 batches of 10 s each, against the 240/10 = 24 s
budget of line 124. -/
def envValBudget : Env :=
  { baseEnv with trainCost := fun e _ => if e = 0 then 241 else 0,
                 nValBatches := 1000 }

/-- A `KeyboardInterrupt` delivered during the first validation batch of the
validation pass that fires after the first training batch. -/
def envValInterrupt : Env :=
  { baseEnv with trainCost := fun e _ => if e = 0 then 241 else 0,
                 nValBatches := 5,
                 interruptInVal := fun e i j => decide (e = 0 ∧ i = 0 ∧ j = 0) }

/-- A validation pass whose first batch raises an ordinary exception. -/
def envValFail : Env :=
  { baseEnv with nValBatches := 3, valRaises := fun _ _ j => decide (j = 0) }

/-- Fast-regime cadence example: five batches per epoch, snapshot count
frequency two. -/
def envCadence : Env := { baseEnv with saveBatchFreq := 2, nTrainBatches := 5 }

/-- Environment for the first-validation-batch property: two validation
batches available. -/
def envValFirst : Env := { baseEnv with nValBatches := 2 }

/-- A state whose validation clock is already far beyond the budget, to show
the first validation batch is processed even then. -/
def stateLate : SolverState := { initState envValFirst with now := 100000 }

/-- A mid-run validation failure: validation fires after the first training
batch of the first epoch and its first batch raises; no snapshot write ever
raises. -/
def envValFailMid : Env :=
  { baseEnv with nValBatches := 3,
                 trainCost := fun e _ => if e = 0 then 241 else 0,
                 valRaises := fun _ _ j => decide (j = 0) }

/-- The solver state carried by a batch-loop result, whether the loop is
continuing or was ended by an escaped exception. -/
def resState : Except (Outcome × SolverState) SolverState → SolverState
  | Except.ok s => s
  | Except.error (_, s) => s

/-- Case analysis on a termination outcome. -/
theorem outcome_trichotomy (o : Outcome) :
    o = Outcome.completed ∨ o = Outcome.interrupted ∨ o = Outcome.failed := by
  cases o
  · exact Or.inl rfl
  · exact Or.inr (Or.inl rfl)
  · exact Or.inr (Or.inr rfl)

/-- C1: every run that enters the training loop writes exactly one
checkpoint, holding the final parameter values, the accumulated loss and
regularization traces, and the model identifier; this is so whatever the
termination cause, and each of the three causes — all twenty epochs
exhausted, a user interrupt, an exception escaping the epoch body — occurs
on some run and still produces the single checkpoint. -/
theorem run_single_checkpoint (env : Env) :
    (runSolver env).checkpoints = [mkCheckpoint env (runSolver env).state] ∧
    ((runSolver env).outcome = Outcome.completed ∨
      (runSolver env).outcome = Outcome.interrupted ∨
      (runSolver env).outcome = Outcome.failed) ∧
    (runSolver baseEnv).outcome = Outcome.completed ∧
    (runSolver envInterrupted).outcome = Outcome.interrupted ∧
    (runSolver envFailed).outcome = Outcome.failed :=
  ⟨rfl, outcome_trichotomy _, by decide, by decide, by decide⟩

/-- C2 counterexample: in `envSnapFail` the first training invocation
completes (`trains = 1`), then the snapshot image write of line 98 raises on
that same batch before the append of line 106 runs, so the run terminates
with an empty loss trace: after N = 1 completed training invocations the
trace length is 0, not 1. -/
theorem trace_drops_entry_on_snapshot_failure :
    (runSolver envSnapFail).state.trains = 1 ∧
    (runSolver envSnapFail).state.losses.length = 0 ∧
    (runSolver envSnapFail).outcome = Outcome.failed := by decide

/-- C3: evaluation of the failing scenario.  In `envValBudget` the
validation set has 1000 batches, each costing 10 s against the
`saveTimeFreq / 10 = 24` s budget, so the claimed early-exit behavior would
process 3 or 4 batches; the code processes exactly 1, because the test of
line 124 measures from `val_snap`, which was last reset before the pass
fired and therefore already exceeds `saveTimeFreq` — let alone its tenth —
when the sub-loop is entered. -/
theorem validation_pass_single_batch :
    (runSolver envValBudget).state.valPassBatches = [1] ∧
    envValBudget.nValBatches = 1000 ∧
    envValBudget.saveTimeFreq / 10 = 24 ∧
    (∀ e i j, envValBudget.predCost e i j = 10) :=
  ⟨by decide, by decide, by decide, fun _ _ _ => rfl⟩

/-- C4: evaluation at the failing input.  In `baseEnv` every training call
returns the regularization scalar 7, yet after twenty completed batches the
`regularization` accumulator holds twenty self-references of the list (line
107 executes `regs.append(regs)`) and not a single scalar entry. -/
theorem regs_hold_selfref_not_scalar :
    (runSolver baseEnv).state.trains = 20 ∧
    (runSolver baseEnv).state.regs = List.replicate 20 RegEntry.selfRef ∧
    baseEnv.regVal 0 0 = 7 ∧
    RegEntry.selfRef ≠ RegEntry.scalar (baseEnv.regVal 0 0) := by decide

/-- C5: evaluation at the failing input.  In `envValInterrupt` a
`KeyboardInterrupt` is delivered during the first validation batch of the
pass fired after the first training batch; the bare `except:` of line 127
consumes it (`swallowed = 1`), training continues through all twenty epochs
(`trains = 20`), and the run terminates normally instead of routing the
interrupt to finalization. -/
theorem interrupt_swallowed_by_validation :
    envValInterrupt.interruptInVal 0 0 0 = true ∧
    (runSolver envValInterrupt).state.swallowed = 1 ∧
    (runSolver envValInterrupt).state.trains = 20 ∧
    (runSolver envValInterrupt).outcome = Outcome.completed ∧
    (runSolver envValInterrupt).checkpoints.length = 1 := by decide

/-- The chain of the three one-character replacements of line 66 acts on
each character as the specification's sanitization map. -/
theorem sanitize_step (c : Char) :
    repl '.' 'o' (repl '-' 'm' (repl '+' 'p' c)) = sanitizeCharSpec c := by
  unfold repl sanitizeCharSpec
  by_cases h1 : c = '+'
  · subst h1; decide
  · by_cases h2 : c = '-'
    · subst h2; decide
    · by_cases h3 : c = '.'
      · subst h3; decide
      · simp [h1, h2, h3]

/-- C8: the save-directory name is the prefix, the sanitized dataset code
(every character sent through the plus-to-p, minus-to-m, dot-to-o map) and
the timestamp, joined by underscores; in particular dataset code `H.E+T-`
with prefix `run` and timestamp `1000` yields `run_HoEpTm_1000`. -/
theorem savedir_sanitized :
    (∀ pre code ts : String,
      saveDirName pre code ts =
        pre ++ "_" ++ String.mk (code.data.map sanitizeCharSpec) ++ "_" ++ ts) ∧
    saveDirName "run" "H.E+T-" "1000" = "run_HoEpTm_1000" := by
  constructor
  · intro pre code ts
    unfold saveDirName regularize_name replaceChar
    have hX : ((code.data.map (repl '+' 'p')).map (repl '-' 'm')).map (repl '.' 'o')
        = code.data.map sanitizeCharSpec := by
      rw [List.map_map, List.map_map]
      congr 1
      funext c
      simpa [Function.comp] using sanitize_step c
    rw [hX]
  · decide

/-- C9: a job-list entry whose decremented identifier falls outside the
registered-model range is skipped with a warning — it lands in the warned
list — and the processed identifiers are exactly those of the job list with
that entry removed, so every subsequent valid identifier is still handled. -/
theorem runJobs_cons (n : Nat) (j : Int) (rest : List Int) :
    runJobs n (j :: rest) =
      if (j - 1 : Int) < 0 ∨ (n : Int) ≤ j - 1 then
        ((runJobs n rest).1, (j - 1) :: (runJobs n rest).2)
      else ((j - 1) :: (runJobs n rest).1, (runJobs n rest).2) := by
  rfl

theorem invalid_model_id_skipped (n : Nat) (pre post : List Int) (j : Int)
    (hj : (j - 1 : Int) < 0 ∨ (n : Int) ≤ j - 1) :
    (runJobs n (pre ++ j :: post)).1 = (runJobs n (pre ++ post)).1 ∧
    (j - 1) ∈ (runJobs n (pre ++ j :: post)).2 := by
  induction pre with
  | nil =>
    simp only [List.nil_append]
    rw [runJobs_cons n j post, if_pos hj]
    exact ⟨rfl, List.mem_cons_self _ _⟩
  | cons a pre ih =>
    simp only [List.cons_append]
    rw [runJobs_cons n a (pre ++ j :: post), runJobs_cons n a (pre ++ post)]
    by_cases ha : (a - 1 : Int) < 0 ∨ (n : Int) ≤ a - 1
    · rw [if_pos ha, if_pos ha]
      exact ⟨ih.1, List.mem_cons_of_mem _ ih.2⟩
    · rw [if_neg ha, if_neg ha]
      exact ⟨by rw [ih.1], ih.2⟩

/-- C9 witness: identifier 99 with two registered models is skipped (its
decrement 98 is warned) and identifiers 1 and 2 after it are still
processed. -/
theorem invalid_model_id_skipped_w :
    (runJobs 2 ([] ++ (99 : Int) :: [1, 2])).1 = (runJobs 2 ([] ++ [1, 2])).1 ∧
    ((99 : Int) - 1) ∈ (runJobs 2 ([] ++ (99 : Int) :: [1, 2])).2 :=
  invalid_model_id_skipped 2 [] [1, 2] 99 (Or.inr (by decide))

/-- The validation inner loop leaves the loss trace, the training counter
and the per-pass record untouched: it only moves the clock and the
validation batch counter. -/
theorem valLoop_fields (env : Env) (e i : Nat) :
    ∀ (fuel j : Nat) (s : SolverState),
      (valLoop env e i fuel j s).1.losses = s.losses ∧
      (valLoop env e i fuel j s).1.trains = s.trains ∧
      (valLoop env e i fuel j s).1.valPassBatches = s.valPassBatches := by
  intro fuel
  induction fuel with
  | zero => intro j s; exact ⟨rfl, rfl, rfl⟩
  | succ fuel ih =>
    intro j s
    by_cases h1 : env.interruptInVal e i j = true
    · simp [valLoop, h1]
    · by_cases h2 : env.valRaises e i j = true
      · simp [valLoop, h1, h2]
      · by_cases h3 : s.now + env.predCost e i j - s.valSnap > env.saveTimeFreq / 10
        · simp [valLoop, h1, h2, h3]
        · have h4 := ih (j + 1)
            { s with now := s.now + env.predCost e i j, valBatch := s.valBatch + 1 }
          simp only [valLoop, h1, h2, h3, Bool.false_eq_true, if_false, ite_false]
          simpa using h4

/-- One firing of the validation sub-loop leaves the loss trace and the
training counter untouched. -/
theorem runValFired_fields (env : Env) (e i : Nat) (s : SolverState) :
    (runValFired env e i s).losses = s.losses ∧
    (runValFired env e i s).trains = s.trains := by
  have h := valLoop_fields env e i env.nValBatches 0 s
  unfold runValFired
  exact ⟨h.1, h.2.1⟩

/-- The record-and-validate step appends exactly one loss entry and leaves
the training counter alone, whether or not a validation pass fires and
however that pass ends. -/
theorem recordAndValidate_trace (env : Env) (e i : Nat) (s : SolverState) :
    (recordAndValidate env e i s).losses.length = s.losses.length + 1 ∧
    (recordAndValidate env e i s).trains = s.trains := by
  unfold recordAndValidate
  by_cases h : s.now - s.valSnap > env.saveTimeFreq
  · rw [if_pos h]
    have hf := runValFired_fields env e i
      { s with losses := s.losses ++ [env.lossVal e i], regs := s.regs ++ [RegEntry.selfRef] }
    constructor
    · rw [hf.1]; simp
    · rw [hf.2]
  · rw [if_neg h]
    constructor
    · simp
    · rfl

/-- A batch body whose snapshot write does not raise preserves the
trace-length invariant, on the continuing path and on every escaping path. -/
theorem runBatch_trace (env : Env) (e i : Nat) (s : SolverState)
    (hsr : env.snapRaises e i = false) (h : traceOk s) :
    traceOk (resState (runBatch env e i s)) := by
  unfold runBatch
  by_cases h1 : env.interruptAt e i = true
  · rw [if_pos h1]
    simp only [resState]
    exact h
  · rw [if_neg h1]
    by_cases h2 : env.trainRaises e i = true
    · rw [if_pos h2]
      simp only [resState]
      exact h
    · rw [if_neg h2]
      by_cases h3 : (s.batch + 1) % env.saveBatchFreq = 0 ∨
          s.now + env.trainCost e i - s.snap > env.saveTimeFreq
      · rw [if_pos h3, if_neg (by simp [hsr])]
        simp only [resState]
        have hr := recordAndValidate_trace env e i
          { s with now := s.now + env.trainCost e i + env.snapCost e i,
                   snap := s.now + env.trainCost e i + env.snapCost e i,
                   trains := s.trains + 1, batch := s.batch + 1,
                   snapshots := s.snapshots ++ [(e, s.batch + 1)] }
        unfold traceOk
        rw [hr.1, hr.2]
        unfold traceOk at h
        show s.losses.length + 1 = s.trains + 1
        omega
      · rw [if_neg h3]
        simp only [resState]
        have hr := recordAndValidate_trace env e i
          { s with now := s.now + env.trainCost e i,
                   trains := s.trains + 1, batch := s.batch + 1 }
        unfold traceOk
        rw [hr.1, hr.2]
        unfold traceOk at h
        show s.losses.length + 1 = s.trains + 1
        omega

/-- The batch loop preserves the trace-length invariant when no snapshot
write raises. -/
theorem runBatches_trace (env : Env) (e : Nat)
    (hsr : ∀ a b, env.snapRaises a b = false) :
    ∀ (fuel i : Nat) (s : SolverState), traceOk s →
      traceOk (resState (runBatches env e fuel i s)) := by
  intro fuel
  induction fuel with
  | zero => intro i s h; exact h
  | succ fuel ih =>
    intro i s h
    unfold runBatches
    have hb := runBatch_trace env e i s (hsr e i) h
    cases hq : runBatch env e i s with
    | ok s1 =>
      rw [hq] at hb
      simp only [hq]
      exact ih (i + 1) s1 hb
    | error r =>
      rw [hq] at hb
      simp only [hq]
      exact hb

/-- The epoch loop preserves the trace-length invariant when no snapshot
write raises. -/
theorem runEpochs_trace (env : Env)
    (hsr : ∀ a b, env.snapRaises a b = false) :
    ∀ (fuel e : Nat) (s : SolverState), traceOk s → traceOk (runEpochs env fuel e s).2 := by
  intro fuel
  induction fuel with
  | zero => intro e s h; exact h
  | succ fuel ih =>
    intro e s h
    unfold runEpochs
    have hb := runBatches_trace env e hsr env.nTrainBatches 0
      { s with batch := 0, valBatch := 0 } h
    cases hq : runBatches env e env.nTrainBatches 0 { s with batch := 0, valBatch := 0 } with
    | ok s1 =>
      rw [hq] at hb
      simp only [hq]
      exact ih (e + 1) s1 hb
    | error r =>
      rw [hq] at hb
      simp only [hq]
      exact hb

/-- C2 (amended): for every run in which no snapshot image write raises, the
loss trace after the run has exactly one entry per training-function
invocation that completed without raising — across validation failures,
user interrupts between batches, and training-call failures alike.  (The
counterexample shows the unamended claim fails when a snapshot write raises
on the batch of a completed invocation.) -/
theorem trace_length_eq_trains (env : Env)
    (hsr : ∀ e i, env.snapRaises e i = false) :
    (runSolver env).state.losses.length = (runSolver env).state.trains := by
  have h := runEpochs_trace env hsr 20 0 (initState env) rfl
  exact h

/-- C2 witness: in `envValFailMid` a validation pass fires mid-run and its
first batch raises; the invariant still holds at the end of the run. -/
theorem trace_length_eq_trains_w :
    (runSolver envValFailMid).state.losses.length = (runSolver envValFailMid).state.trains :=
  trace_length_eq_trains envValFailMid (fun _ _ => rfl)

/-- C6: a failure inside the validation sub-loop is caught by the bare
handler of line 127 and contained: the firing routine always returns
(nothing propagates), a raise on the first validation batch is counted as a
caught abort, the validation clock is reset to the time the pass ended
(line 130 runs on every path), and — whenever the batch body itself reaches
the sub-loop, i.e. no interrupt, training failure or snapshot failure — the
batch returns on the continuing path so training resumes with the next
training batch, whatever the validation fault oracles say. -/
theorem validation_failures_contained (env : Env) (e i : Nat) (s : SolverState) :
    (runValFired env e i s).valSnap = (runValFired env e i s).now ∧
    (1 ≤ env.nValBatches →
      (env.interruptInVal e i 0 = true ∨ env.valRaises e i 0 = true) →
      (runValFired env e i s).valAborts = s.valAborts + 1) ∧
    (env.interruptAt e i = false → env.trainRaises e i = false →
      env.snapRaises e i = false →
      ∃ s1, runBatch env e i s = Except.ok s1) := by
  refine ⟨rfl, ?_, ?_⟩
  · intro hn hraise
    obtain ⟨m, hm⟩ := Nat.exists_eq_succ_of_ne_zero (Nat.one_le_iff_ne_zero.mp hn)
    unfold runValFired
    rw [hm]
    by_cases h1 : env.interruptInVal e i 0 = true
    · simp [valLoop, h1]
    · have h2 : env.valRaises e i 0 = true := by
        rcases hraise with h | h
        · exact absurd h h1
        · exact h
      simp [valLoop, h1, h2]
  · intro h1 h2 h3
    unfold runBatch
    rw [if_neg (by simp [h1]), if_neg (by simp [h2])]
    by_cases h4 : (s.batch + 1) % env.saveBatchFreq = 0 ∨
        s.now + env.trainCost e i - s.snap > env.saveTimeFreq
    · rw [if_pos h4, if_neg (by simp [h3])]
      exact ⟨_, rfl⟩
    · rw [if_neg h4]
      exact ⟨_, rfl⟩

/-- C6 witness: in `envValFail` the first validation batch raises; the pass
aborts with the abort counted, the clock is reset, and the batch still
returns on the continuing path. -/
theorem validation_failures_contained_w :
    (runValFired envValFail 0 0 (initState envValFail)).valSnap =
      (runValFired envValFail 0 0 (initState envValFail)).now ∧
    (runValFired envValFail 0 0 (initState envValFail)).valAborts =
      (initState envValFail).valAborts + 1 ∧
    ∃ s1, runBatch envValFail 0 0 (initState envValFail) = Except.ok s1 :=
  ⟨(validation_failures_contained envValFail 0 0 (initState envValFail)).1,
   (validation_failures_contained envValFail 0 0 (initState envValFail)).2.1
     (by decide) (Or.inr (by decide)),
   (validation_failures_contained envValFail 0 0 (initState envValFail)).2.2 rfl rfl rfl⟩

/-- C10: whenever the validation sub-loop fires and the validation iterator
yields at least one batch whose body does not raise, the pass fully
processes at least one batch — whatever the clocks say on entry — because
the time test of line 124 runs only after the prediction call, the image
write and the counter increment of lines 114-122. -/
theorem val_first_batch_processed (env : Env) (e i : Nat) (s : SolverState)
    (hn : 1 ≤ env.nValBatches)
    (h1 : env.interruptInVal e i 0 = false)
    (h2 : env.valRaises e i 0 = false) :
    ∃ k, 1 ≤ k ∧
      (runValFired env e i s).valPassBatches = s.valPassBatches ++ [k] := by
  obtain ⟨m, hm⟩ := Nat.exists_eq_succ_of_ne_zero (Nat.one_le_iff_ne_zero.mp hn)
  unfold runValFired
  rw [hm]
  by_cases h3 : s.now + env.predCost e i 0 - s.valSnap > env.saveTimeFreq / 10
  · refine ⟨1, le_refl 1, ?_⟩
    simp [valLoop, h1, h2, h3]
  · have h4 := valLoop_fields env e i m 1
      { s with now := s.now + env.predCost e i 0, valBatch := s.valBatch + 1 }
    refine ⟨(valLoop env e i m 1
        { s with now := s.now + env.predCost e i 0, valBatch := s.valBatch + 1 }).2.1 + 1,
      Nat.le_add_left 1 _, ?_⟩
    simp [valLoop, h1, h2, h3]
    rw [h4.2.2]

/-- C10 witness: with the validation clock already far beyond the whole
budget on entry (`stateLate`), the first of the two available validation
batches is still fully processed before the early exit. -/
theorem val_first_batch_processed_w :
    ∃ k, 1 ≤ k ∧
      (runValFired envValFirst 0 0 stateLate).valPassBatches =
        stateLate.valPassBatches ++ [k] :=
  val_first_batch_processed envValFirst 0 0 stateLate (by decide) rfl rfl

/-- In the fast-batch regime a batch body is a pure step: the training call
succeeds instantly, neither time trigger can fire, and the snapshot fires
exactly on the count trigger of line 93. -/
theorem fast_runBatch (env : Env) (hf : fastEnv env) (e i : Nat) (s : SolverState)
    (hnow : s.now = env.startTime) (hsnap : s.snap = env.startTime)
    (hval : s.valSnap = env.startTime) :
    runBatch env e i s = Except.ok
      { s with trains := s.trains + 1, batch := s.batch + 1,
               losses := s.losses ++ [env.lossVal e i],
               regs := s.regs ++ [RegEntry.selfRef],
               snapshots := s.snapshots ++
                 (if (s.batch + 1) % env.saveBatchFreq = 0
                  then [(e, s.batch + 1)] else []) } := by
  obtain ⟨hc1, hc2, hc3, hc4, hc5⟩ := hf
  by_cases hb : (s.batch + 1) % env.saveBatchFreq = 0
  · simp [runBatch, recordAndValidate, hc1, hc2, hc3, hc4, hc5, hb, hnow, hsnap, hval]
  · simp [runBatch, recordAndValidate, hc1, hc2, hc3, hc4, hc5, hb, hnow, hsnap, hval]

/-- Unfolding one batch out of the count-trigger prediction. -/
theorem batchIds_succ (start n : Nat) :
    batchIds start (n + 1) = (start + 1) :: batchIds (start + 1) n := rfl

theorem firedBatches_succ (f start n : Nat) :
    firedBatches f start (n + 1) =
      (if (start + 1) % f = 0 then [start + 1] else []) ++ firedBatches f (start + 1) n := by
  unfold firedBatches
  rw [batchIds_succ, List.filter_cons]
  by_cases hb : (start + 1) % f = 0
  · simp [hb]
  · simp [hb]

/-- In the fast-batch regime the batch loop of one epoch completes and
appends exactly the count-triggered snapshot tags. -/
theorem fast_runBatches (env : Env) (hf : fastEnv env) (e : Nat) :
    ∀ (fuel i : Nat) (s : SolverState),
      s.now = env.startTime → s.snap = env.startTime → s.valSnap = env.startTime →
      ∃ s1, runBatches env e fuel i s = Except.ok s1 ∧
        s1.now = env.startTime ∧ s1.snap = env.startTime ∧ s1.valSnap = env.startTime ∧
        s1.batch = s.batch + fuel ∧
        s1.snapshots = s.snapshots ++
          (firedBatches env.saveBatchFreq s.batch fuel).map (fun b => (e, b)) := by
  intro fuel
  induction fuel with
  | zero =>
    intro i s h1 h2 h3
    exact ⟨s, rfl, h1, h2, h3, rfl, by simp [firedBatches, batchIds]⟩
  | succ fuel ih =>
    intro i s h1 h2 h3
    unfold runBatches
    rw [fast_runBatch env ⟨hf.1, hf.2.1, hf.2.2.1, hf.2.2.2.1, hf.2.2.2.2⟩ e i s h1 h2 h3]
    obtain ⟨s1, hrun, k1, k2, k3, kb, ks⟩ := ih (i + 1)
      { s with trains := s.trains + 1, batch := s.batch + 1,
               losses := s.losses ++ [env.lossVal e i],
               regs := s.regs ++ [RegEntry.selfRef],
               snapshots := s.snapshots ++
                 (if (s.batch + 1) % env.saveBatchFreq = 0
                  then [(e, s.batch + 1)] else []) } h1 h2 h3
    refine ⟨s1, ?_, k1, k2, k3, ?_, ?_⟩
    · exact hrun
    · rw [kb]
      show s.batch + 1 + fuel = s.batch + (fuel + 1)
      omega
    · rw [ks]
      show (s.snapshots ++
          (if (s.batch + 1) % env.saveBatchFreq = 0
           then [(e, s.batch + 1)] else [])) ++
          (firedBatches env.saveBatchFreq (s.batch + 1) fuel).map (fun b => (e, b)) =
        s.snapshots ++
          (firedBatches env.saveBatchFreq s.batch (fuel + 1)).map (fun b => (e, b))
      rw [firedBatches_succ]
      by_cases hb : (s.batch + 1) % env.saveBatchFreq = 0
      · simp [hb, List.append_assoc]
      · simp [hb]

/-- In the fast-batch regime the whole epoch loop completes normally and the
snapshot tags are exactly the per-epoch count-triggered ones. -/
theorem fast_runEpochs (env : Env) (hf : fastEnv env) :
    ∀ (fuel e : Nat) (s : SolverState),
      s.now = env.startTime → s.snap = env.startTime → s.valSnap = env.startTime →
      (runEpochs env fuel e s).1 = Outcome.completed ∧
      (runEpochs env fuel e s).2.snapshots =
        s.snapshots ++ epochSnaps env.saveBatchFreq env.nTrainBatches e fuel := by
  intro fuel
  induction fuel with
  | zero => intro e s h1 h2 h3; exact ⟨rfl, by simp [runEpochs, epochSnaps]⟩
  | succ fuel ih =>
    intro e s h1 h2 h3
    unfold runEpochs
    obtain ⟨s1, hrun, k1, k2, k3, kb, ks⟩ := fast_runBatches env hf e env.nTrainBatches 0
      { s with batch := 0, valBatch := 0 } h1 h2 h3
    simp only [hrun]
    obtain ⟨o1, o2⟩ := ih (e + 1) s1 k1 k2 k3
    refine ⟨o1, ?_⟩
    rw [o2, ks]
    show (s.snapshots ++
        (firedBatches env.saveBatchFreq 0 env.nTrainBatches).map (fun b => (e, b))) ++
        epochSnaps env.saveBatchFreq env.nTrainBatches (e + 1) fuel =
      s.snapshots ++ epochSnaps env.saveBatchFreq env.nTrainBatches e (fuel + 1)
    simp [epochSnaps, List.append_assoc]

/-- Membership in the consecutive batch numbers. -/
theorem mem_batchIds (b : Nat) :
    ∀ (n start : Nat), b ∈ batchIds start n ↔ start + 1 ≤ b ∧ b ≤ start + n := by
  intro n
  induction n with
  | zero =>
    intro start
    simp only [batchIds, List.not_mem_nil, false_iff]
    omega
  | succ n ih =>
    intro start
    simp only [batchIds, List.mem_cons, ih (start + 1)]
    omega

/-- Membership in the count-triggered batches of one epoch. -/
theorem mem_firedBatches (f n b : Nat) :
    b ∈ firedBatches f 0 n ↔ 1 ≤ b ∧ b ≤ n ∧ b % f = 0 := by
  unfold firedBatches
  rw [List.mem_filter, mem_batchIds]
  simp [and_assoc]

/-- Membership in the predicted snapshot tags over a range of epochs. -/
theorem mem_epochSnaps (f n pe pb : Nat) :
    ∀ (fuel e0 : Nat), (pe, pb) ∈ epochSnaps f n e0 fuel ↔
      (e0 ≤ pe ∧ pe < e0 + fuel ∧ pb ∈ firedBatches f 0 n) := by
  intro fuel
  induction fuel with
  | zero =>
    intro e0
    simp only [epochSnaps, List.not_mem_nil, false_iff]
    rintro ⟨h1, h2, _⟩
    omega
  | succ fuel ih =>
    intro e0
    simp only [epochSnaps, List.mem_append, List.mem_map, ih (e0 + 1), Prod.mk.injEq]
    constructor
    · rintro (⟨b, hb, he, hbb⟩ | ⟨ha, hb2, hc⟩)
      · subst he
        subst hbb
        exact ⟨le_refl _, by omega, hb⟩
      · exact ⟨by omega, by omega, hc⟩
    · rintro ⟨ha, hb2, hc⟩
      by_cases he : pe = e0
      · exact Or.inl ⟨pb, hc, he.symm, rfl⟩
      · exact Or.inr ⟨by omega, by omega, hc⟩

/-- C7: in the fast-batch regime (no call raises, every call is instant, so
elapsed time never exceeds the threshold) the training snapshot fires
precisely on the batches whose 1-based number is a multiple of
`saveBatchFreq`, in every one of the twenty epochs, and on no others; with
frequency 100 these are batches 100, 200, 300, ... of each epoch,
independent of wall-clock time.  The OR of the two triggers and the clock
reset on firing are those of lines 93 and 102 embedded in `runBatch`. -/
theorem snapshot_cadence_fast (env : Env) (hf : fastEnv env) (p : Nat × Nat) :
    p ∈ (runSolver env).state.snapshots ↔
      p.1 < 20 ∧ 1 ≤ p.2 ∧ p.2 ≤ env.nTrainBatches ∧
        p.2 % env.saveBatchFreq = 0 := by
  obtain ⟨pe, pb⟩ := p
  have h := fast_runEpochs env hf 20 0 (initState env) rfl rfl rfl
  have hs : (runSolver env).state.snapshots =
      epochSnaps env.saveBatchFreq env.nTrainBatches 0 20 := by
    have h2 := h.2
    simpa [runSolver, initState] using h2
  rw [hs, mem_epochSnaps, mem_firedBatches]
  simp

/-- C7 witness: in `envCadence` (count frequency 2, five batches per epoch,
instant calls) the tag (epoch 0, batch 2) is a snapshot firing, matching the
count trigger. -/
theorem snapshot_cadence_fast_w :
    (0, 2) ∈ (runSolver envCadence).state.snapshots ↔
      0 < 20 ∧ 1 ≤ 2 ∧ 2 ≤ envCadence.nTrainBatches ∧
        2 % envCadence.saveBatchFreq = 0 :=
  snapshot_cadence_fast envCadence
    ⟨fun _ _ => rfl, fun _ _ => rfl, fun _ _ => rfl, fun _ _ => rfl, fun _ _ => rfl⟩
    (0, 2)
